import Mathlib

/-!
Verification development for the SmartBrain dual-backend chat orchestrator
(src/brain/claude.js of the mj-bot-deploy repository).

The JavaScript source is shallowly embedded as pure Lean functions.
External network calls (the Gemini "fast backend" HTTP endpoint, the OpenAI
"powerful backend" endpoint, the OAuth token-refresh endpoint, the Google
Workspace skills) are modelled as oracle values supplied in small "world"
structures: each field records the outcome the external service would
produce for the single call the code makes at that point.  JavaScript
strings are modelled as Lean String or List Char; JS falsiness of a string
(undefined or empty) is modelled by the empty string; absent response
fields are modelled with Option.  Character class operations (toLowerCase,
toUpperCase, whitespace, the word class of regexes) are modelled over the
ASCII range, which covers every literal the source matches against.
-/

deriving instance DecidableEq for Except

namespace MJBot

/-- ASCII model of the JavaScript whitespace class used by String.trim and
the regex class written with a backslash followed by s. -/
def isJsWs (c : Char) : Bool :=
  c = ' ' || c = '\t' || c = '\n' || c = '\r' || c = '\x0b' || c = '\x0c'

/-- ASCII model of the regex word-character class (letters, digits, underscore). -/
def isWordChar (c : Char) : Bool :=
  c.isAlphanum || c = '_'

/-- The apostrophe character, kept as a named constant. -/
def aposC : Char := Char.ofNat 39

/-- The apostrophe as a one-character string. -/
def apos : String := String.mk [aposC]

/-- Opening curly brace character. -/
def openBraceC : Char := Char.ofNat 123

/-- Closing curly brace character. -/
def closeBraceC : Char := Char.ofNat 125

/-- Model of JavaScript toLowerCase on the character list of a string
(ASCII range). -/
def jsLowerL (m : String) : List Char := m.data.map Char.toLower

/-- Model of JavaScript trim: drop leading and trailing whitespace. -/
def trimList (s : List Char) : List Char :=
  ((s.dropWhile isJsWs).reverse.dropWhile isJsWs).reverse

/-- Model of JavaScript trim on strings. -/
def jsTrimStr (s : String) : String := String.mk (trimList s.data)

/-- Model of JavaScript toUpperCase on strings (ASCII range). -/
def jsUpperStr (s : String) : String := String.mk (s.data.map Char.toUpper)

/-- Drop an exact prefix from a character list, returning the remainder. -/
def dropPref : List Char → List Char → Option (List Char)
  | [], s => some s
  | _ :: _, [] => none
  | p :: ps, c :: cs => if p = c then dropPref ps cs else none

/-- Drop a case-insensitive prefix from a character list (models a literal
alternative of a regex with the i flag). -/
def ciDropPref : List Char → List Char → Option (List Char)
  | [], s => some s
  | _ :: _, [] => none
  | p :: ps, c :: cs => if p.toLower = c.toLower then ciDropPref ps cs else none

/-!
## Token lifecycle (TokenManager)

Embeds the constructor token fields, `_refreshAccessToken` and
`_getValidToken` of SmartBrain.  A token value is a String; the empty
string models a missing (JS-falsy) token.  `getValidToken` additionally
returns the number of times `_refreshAccessToken` was invoked during the
call (0 or 1), which the code performs as a side effect.
-/

/-- Fields of the SmartBrain token state: access token, refresh token and
the stored expiry in epoch milliseconds. -/
structure TokenState where
  openaiAccessToken : String
  openaiRefreshToken : String
  tokenExpiresAt : Int
deriving DecidableEq, Repr

/-- Token state right after the SmartBrain constructor ran: the configured
tokens and a stored expiry of 0 (source comment: will auto-refresh on first
call). -/
def initialTokenState (cfgToken cfgRefresh : String) : TokenState :=
  { openaiAccessToken := cfgToken, openaiRefreshToken := cfgRefresh, tokenExpiresAt := 0 }

/-- Body of the OAuth refresh endpoint response:
access_token, optional rotated refresh_token (empty = absent) and
expires_in seconds (0 models a JS-falsy / absent value). -/
structure RefreshResponse where
  access_token : String
  refresh_token : String
  expires_in : Int
deriving DecidableEq, Repr

/-- Embedding of `_refreshAccessToken`.  `resp` is the outcome of the HTTP
post to the OAuth endpoint (error value = the message the code would
extract from the axios error).  On success the access token is replaced,
the refresh token rotates when the response carries one, and the stored
expiry becomes now + (expires_in or 3600) seconds in ms minus a 60 s
safety margin. -/
def refreshAccessToken (now : Int) (st : TokenState)
    (resp : Except String RefreshResponse) : Except String TokenState :=
  if st.openaiRefreshToken = "" then .error "No OpenAI refresh token configured"
  else
    match resp with
    | .error e => .error ("OpenAI token refresh failed: " ++ e)
    | .ok r =>
        .ok { openaiAccessToken := r.access_token,
              openaiRefreshToken :=
                if r.refresh_token = "" then st.openaiRefreshToken else r.refresh_token,
              tokenExpiresAt :=
                now + (if r.expires_in = 0 then 3600 else r.expires_in) * 1000 - 60000 }

/-- Embedding of `_getValidToken`.  Returns the outcome (token plus updated
state, or the thrown error message) paired with the number of refresh
attempts made (the second component). -/
def getValidToken (now : Int) (st : TokenState)
    (resp : Except String RefreshResponse) :
    Except String (String × TokenState) × Nat :=
  if st.openaiAccessToken = "" ∧ st.openaiRefreshToken = "" then
    (.error "No OpenAI credentials configured. Set OPENAI_CODEX_TOKEN and OPENAI_CODEX_REFRESH in .env", 0)
  else if st.openaiAccessToken = "" ∨ now ≥ st.tokenExpiresAt then
    match refreshAccessToken now st resp with
    | .error e => (.error e, 1)
    | .ok st2 => (.ok (st2.openaiAccessToken, st2), 1)
  else (.ok (st.openaiAccessToken, st), 0)

/-!
## `_callOpenAI` with the reactive 401 refresh-and-retry
-/

/-- Model of a JavaScript error thrown by an axios call: an HTTP error
response with a status, a timeout (code ECONNABORTED), or any other
error carrying a message. -/
inductive JsErr where
  | http (status : Int) (msg : String)
  | aborted (msg : String)
  | other (msg : String)
deriving DecidableEq, Repr

/-- The message carried by a JsErr. -/
def errMessage : JsErr → String
  | .http _ m => m
  | .aborted m => m
  | .other m => m

/-- Whether the error is an HTTP response with status 401. -/
def isHttp401 : JsErr → Bool
  | .http s _ => s = 401
  | _ => false

/-- Whether the error is an axios timeout (code ECONNABORTED). -/
def isAbortedErr : JsErr → Bool
  | .aborted _ => true
  | _ => false

/-- JS truthiness of a response text field: the code returns the text only
when it is present and nonempty, otherwise null. -/
def jsTruthyText (o : Option String) : Option String :=
  match o with
  | some t => if t = "" then none else some t
  | none => none

/-- Oracle outcomes for the external calls `_callOpenAI` can make:
the proactive refresh via `_getValidToken`, the main chat-completions
request, the reactive refresh after a 401, and the single retry. -/
structure OpenAIWorld where
  proactive : Except String RefreshResponse
  mainResult : Except JsErr (Option String)
  reactive : Except String RefreshResponse
  retryResult : Except JsErr (Option String)

/-- Embedding of `_callOpenAI`.  Result components: the returned text or
thrown error message, the token state afterwards, the total number of
refresh attempts, and the number of chat-completions HTTP attempts. -/
def callOpenAI (now : Int) (st : TokenState) (w : OpenAIWorld) :
    Except String (Option String) × TokenState × Nat × Nat :=
  match getValidToken now st w.proactive with
  | (.error e, n) => (.error e, st, n, 0)
  | (.ok (_, st1), n) =>
    match w.mainResult with
    | .ok content => (.ok (jsTruthyText content), st1, n, 1)
    | .error e =>
      if isHttp401 e then
        match refreshAccessToken now st1 w.reactive with
        | .error re => (.error re, st1, n + 1, 1)
        | .ok st2 =>
          match w.retryResult with
          | .ok c => (.ok (jsTruthyText c), st2, n + 1, 2)
          | .error e2 => (.error (errMessage e2), st2, n + 1, 2)
      else if isAbortedErr e then (.error "OpenAI API timed out", st1, n, 1)
      else (.error (errMessage e), st1, n, 1)

/-!
## Classifier (`classifyMessage`)
-/

/-- Embedding of `classifyMessage`.  The argument is the outcome of the
single Gemini HTTP call: an exception, or a response whose optional text
field is the classifier output.  The code lowers the whole computation of
the optional chain text trim toUpperCase into the comparison below and
returns the Gemini label on any failure. -/
def classifyMessage (resp : Except String (Option String)) : String :=
  match resp with
  | .error _ => "gemini"
  | .ok o =>
    let result := o.map (fun t => jsUpperStr (jsTrimStr t))
    if result = some "ACTION" then "claude" else "gemini"

/-!
## `_handleSendEmail` and the JSON-region extraction
-/

/-- Longest prefix of the list ending at its last closing brace, or none
when the list holds no closing brace. -/
def upToLastClose : List Char → Option (List Char)
  | [] => none
  | c :: r =>
    match upToLastClose r with
    | some t => some (c :: t)
    | none => if c = closeBraceC then some [c] else none

/-- Suffix of the list starting at its first opening brace. -/
def afterFirstOpen : List Char → Option (List Char)
  | [] => none
  | c :: r => if c = openBraceC then some (c :: r) else afterFirstOpen r

/-- Embedding of matching the regex written as an opening brace, a greedy
any-character star and a closing brace (the JSON-region scan of the parse
handlers): the match runs from the first opening brace to the last closing
brace after it, and fails when no such pair exists. -/
def braceMatch (s : List Char) : Option (List Char) :=
  match afterFirstOpen s with
  | none => none
  | some t =>
    match t with
    | [] => none
    | c :: rest =>
      match upToLastClose rest with
      | some u => some (c :: u)
      | none => none

/-- The destructured keys of the JSON object parsed from the model output
in `_handleSendEmail`; an empty string models an absent (JS-falsy) key.
The source key named t-o is a Lean keyword and is embedded as toAddr. -/
structure EmailJson where
  toAddr : String
  subject : String
  body : String
deriving DecidableEq, Repr

/-- Oracle outcomes for `_handleSendEmail`: the Gemini parse call (its
optional text field), the behaviour of JSON.parse on the matched region,
and the outcome of the sendEmail skill call. -/
structure EmailWorld where
  parseCall : Except String (Option String)
  jsonParse : String → Except String EmailJson
  sendResult : Except String String

/-- Literal guidance string returned when no JSON region is found. -/
def noJsonMsg : String :=
  "I couldn" ++ apos ++ "t understand the email details. Try: \"Send an email to name@email.com about [subject] saying [message]\""

/-- Embedding of `_handleSendEmail`.  Returns the reply string paired with
whether the external sendEmail skill was invoked. -/
def handleSendEmail (_message : String) (w : EmailWorld) : String × Bool :=
  match w.parseCall with
  | .error e => ("Failed to send email: " ++ e, false)
  | .ok o =>
    let rawText := o.getD ""
    match braceMatch rawText.data with
    | none => (noJsonMsg, false)
    | some region =>
      match w.jsonParse (String.mk region) with
      | .error e => ("Failed to send email: " ++ e, false)
      | .ok j =>
        if j.toAddr = "" then ("I need a recipient email address.", false)
        else
          match w.sendResult with
          | .error e => ("Failed to send email: " ++ e, false)
          | .ok r =>
            ("Email sent to **" ++ j.toAddr ++ "**!\nSubject: " ++ j.subject ++ "\n\n" ++ r, true)

/-!
## Drive search-term derivation (`_analyzeGoogleData`, drive branch)

The source applies four chained global replace calls and a trim, then
substitutes the literal "recent" when the residual term is empty, shorter
than three characters, or fully matches a stop-token alternation.  The
replace semantics of a global case-insensitive alternation of literals is
embedded directly: scan left to right, at each position try the
alternatives in their written order, and on a match drop the matched
characters (plus trailing whitespace where the pattern ends in a greedy
whitespace star), otherwise copy one character.
-/

/-- Try an ordered list of case-insensitive literal alternatives at the
head of the list; return the remainder after the first alternative that
matches. -/
def tryAlts : List (List Char) → List Char → Option (List Char)
  | [], _ => none
  | p :: ps, s =>
    match ciDropPref p s with
    | some r => some r
    | none => tryAlts ps s

/-- The leading politeness prefixes removed (anchored, at most once) by the
first replace of the drive branch. -/
def leadGreetings : List (List Char) :=
  ["can you ", "please ", "hey ", "could you ", "i want to ", "i need to "].map String.data

/-- First replace of the drive branch: the anchored greeting alternation
with the global flag removes at most the one leading match. -/
def stripLeadGreeting (s : List Char) : List Char :=
  match tryAlts leadGreetings s with
  | some r => r
  | none => s

/-- Alternatives of the second replace that precede the what-token in the
written pattern order. -/
def stopAlts1 : List (List Char) :=
  ["search", "find", "look", "check", "show", "get", "list", "see", "view",
   "open", "my", "on", "in", "the", "me", "through", "for", "at", "all", "up"].map String.data

/-- Alternatives of the second replace that follow the what-token. -/
def stopAlts2 : List (List Char) :=
  ["is", "are", "do", "does"].map String.data

/-- Greedy consumption of the optional apostrophe and optional s that end
the what-alternative of the second replace. -/
def dropAposS (r : List Char) : List Char :=
  let r1 := match r with
    | c :: t => if c = aposC then t else c :: t
    | [] => []
  match r1 with
  | c :: t => if c.toLower = 's' then t else c :: t
  | [] => []

/-- The what-alternative (w h a t, optional apostrophe, optional s). -/
def whatMatch (s : List Char) : Option (List Char) :=
  (ciDropPref "what".data s).map dropAposS

/-- One alternation attempt of the second replace at a fixed position,
alternatives tried in written order. -/
def stopAltAt (s : List Char) : Option (List Char) :=
  match tryAlts stopAlts1 s with
  | some r => some r
  | none =>
    match whatMatch s with
    | some r => some r
    | none => tryAlts stopAlts2 s

/-- Greedy whitespace star: drop all leading whitespace. -/
def wsDropAll : List Char → List Char
  | [] => []
  | c :: r => if isJsWs c then wsDropAll r else c :: r

/-- Fuelled left-to-right scan of the second (stop-word) replace; every
alternative consumes at least one character, so fuel equal to the input
length always suffices. -/
def replaceStopsF : Nat → List Char → List Char
  | 0, s => s
  | _ + 1, [] => []
  | fuel + 1, c :: r =>
    match stopAltAt (c :: r) with
    | some rest => replaceStopsF fuel (wsDropAll rest)
    | none => c :: replaceStopsF fuel r

/-- Second replace of the drive branch: global removal of the stop-word
alternation together with trailing whitespace. -/
def replaceStops (s : List Char) : List Char := replaceStopsF s.length s

/-- Third-replace alternatives as base word and whether the pattern allows
an optional trailing s. -/
def wordAlts : List (List Char × Bool) :=
  [("drive".data, false), ("file".data, true), ("document".data, true),
   ("folder".data, true), ("google".data, false), ("recent".data, false),
   ("stuff".data, false), ("thing".data, true), ("content".data, false)]

/-- Word-boundary test after a match: end of input or a non-word char. -/
def boundaryAfter : List Char → Bool
  | [] => true
  | c :: _ => !(isWordChar c)

/-- One alternative of the third replace at a fixed position: greedy on the
optional s, requiring a word boundary after the match. -/
def tryWordAlt (base : List Char) (optS : Bool) (s : List Char) : Option (List Char) :=
  let withS :=
    if optS then
      match ciDropPref (base ++ ['s']) s with
      | some r => if boundaryAfter r then some r else none
      | none => none
    else none
  match withS with
  | some r => some r
  | none =>
    match ciDropPref base s with
    | some r => if boundaryAfter r then some r else none
    | none => none

/-- The third-replace alternation at a fixed position, alternatives in
written order. -/
def tryWordAlts : List (List Char × Bool) → List Char → Option (List Char)
  | [], _ => none
  | (b, o) :: ps, s =>
    match tryWordAlt b o s with
    | some r => some r
    | none => tryWordAlts ps s

/-- Fuelled scan of the third (word-bounded noun) replace.  The Boolean
tracks whether the previous character was a word character, which decides
the word boundary before a candidate match. -/
def replaceWordStopsF : Nat → Bool → List Char → List Char
  | 0, _, s => s
  | _ + 1, _, [] => []
  | fuel + 1, prevWord, c :: r =>
    if !prevWord then
      match tryWordAlts wordAlts (c :: r) with
      | some rest => replaceWordStopsF fuel true rest
      | none => c :: replaceWordStopsF fuel (isWordChar c) r
    else c :: replaceWordStopsF fuel (isWordChar c) r

/-- Third replace of the drive branch (word-bounded noun removal). -/
def replaceWordStops (s : List Char) : List Char := replaceWordStopsF s.length false s

/-- Fourth replace of the drive branch: delete question mark, exclamation
mark, period and comma. -/
def stripPunct (s : List Char) : List Char :=
  s.filter (fun c => !(c = '?' || c = '!' || c = '.' || c = ','))

/-- Case-insensitive equality of character lists. -/
def ciEqList (a b : List Char) : Bool :=
  a.map Char.toLower = b.map Char.toLower

/-- The anchored stop-token alternation tested against the residual term. -/
def searchStopTokens : List (List Char) :=
  ["or", "not", "to", "it", "a", "an", "i", "and", "but", "so", "how",
   "can", "has", "have", "had"].map String.data

/-- Embedding of the drive-branch search-term derivation of
`_analyzeGoogleData`: the four replaces, the trim, and the substitution of
the default term "recent". -/
def driveSearchTerm (message : String) : String :=
  let t := trimList (stripPunct (replaceWordStops (replaceStops (stripLeadGreeting message.data))))
  if t = [] ∨ t.length < 3 ∨ searchStopTokens.any (fun p => ciEqList p t) then "recent"
  else String.mk t

/-!
## Video-intent option extraction (duration)
-/

/-- Maximal digit run at the head of the list together with the remainder. -/
def digitsRun : List Char → List Char × List Char
  | [] => ([], [])
  | c :: r =>
    if c.isDigit then
      let (ds, rest) := digitsRun r
      (c :: ds, rest)
    else ([], c :: r)

/-- Leftmost match of the duration regex (a captured digit run, optional
whitespace, the literal sec) over the lowercased message; returns the
captured digits. -/
def firstNumSec : List Char → Option (List Char)
  | [] => none
  | c :: r =>
    if c.isDigit then
      let (ds, rest) := digitsRun (c :: r)
      match dropPref "sec".data (wsDropAll rest) with
      | some _ => some ds
      | none => firstNumSec r
    else firstNumSec r

/-- Decimal value of a digit run (models parseInt on the capture). -/
def parseDec (ds : List Char) : Nat :=
  ds.foldl (fun a c => a * 10 + (c.toNat - 48)) 0

/-- Duration field of the video options: the parsed value is kept only when
it is 4, 6 or 8. -/
def videoDurationOf (lower : List Char) : Option Nat :=
  match firstNumSec lower with
  | none => none
  | some ds =>
    let d := parseDec ds
    if d = 4 ∨ d = 6 ∨ d = 8 then some d else none

/-!
## Regex test semantics for the intent matchers of `think`

Every intent pattern in `think` is used only through a Boolean test, so
only match existence matters.  A matcher takes the previous character of
the subject (for word-boundary assertions) and the current position, and
returns every pair of last-consumed character and remainder a match at
this position can produce; a regex tests true when some start position
yields at least one outcome.  The any-character class of the source
regexes excludes the newline, whitespace and word classes are the ASCII
models above, and the subject is the lowercased message, so the i flag on
the source patterns is already absorbed.
-/

/-- A matcher: previous character and position in, possible
(last consumed character, remainder) outcomes out. -/
abbrev MB := Option Char → List Char → List (Option Char × List Char)

/-- Last element of the list, or the fallback. -/
def lastOr (l : List Char) (prev : Option Char) : Option Char :=
  match l.getLast? with
  | some c => some c
  | none => prev

/-- Literal-string matcher. -/
def mlit (p : String) : MB := fun prev s =>
  match dropPref p.data s with
  | some r => [(lastOr p.data prev, r)]
  | none => []

/-- Sequencing of two matchers. -/
def mseq (a b : MB) : MB := fun prev s =>
  (a prev s).flatMap (fun pr => b pr.1 pr.2)

/-- Ordered alternation of matchers. -/
def malt (ms : List MB) : MB := fun prev s =>
  ms.flatMap (fun m => m prev s)

/-- Optional matcher (regex question mark). -/
def mopt (a : MB) : MB := fun prev s => (prev, s) :: a prev s

/-- Single-character class matcher. -/
def mch (f : Char → Bool) : MB := fun _ s =>
  match s with
  | [] => []
  | c :: r => if f c then [(some c, r)] else []

/-- Zero-or-more repetitions of a character class. -/
def mstarAux (f : Char → Bool) : Option Char → List Char → List (Option Char × List Char)
  | prev, [] => [(prev, [])]
  | prev, c :: r => (prev, c :: r) :: (if f c then mstarAux f (some c) r else [])

/-- Kleene star over a character class. -/
def mstar (f : Char → Bool) : MB := mstarAux f

/-- One-or-more repetitions of a character class. -/
def mplus (f : Char → Bool) : MB := mseq (mch f) (mstar f)

/-- Word-boundary assertion: the word-ness of the previous and the next
character differ. -/
def mb : MB := fun prev s =>
  if (prev.elim false isWordChar) != (match s with
      | [] => false
      | c :: _ => isWordChar c) then [(prev, s)] else []

/-- Any character except newline. -/
def dotAny : MB := mch (fun c => c != '\n')

/-- Greedy-equivalent any-character star (newline excluded). -/
def dotStar : MB := mstar (fun c => c != '\n')

/-- Whitespace plus. -/
def wsPlus : MB := mplus isJsWs

/-- Whitespace star. -/
def wsStar : MB := mstar isJsWs

/-- Word-character plus. -/
def wordPlus : MB := mplus isWordChar

/-- Does the matcher succeed at some position of the list?  The previous
character is threaded for boundary assertions. -/
def rtestAux (m : MB) : Option Char → List Char → Bool
  | prev, [] => !(m prev []).isEmpty
  | prev, c :: r => !(m prev (c :: r)).isEmpty || rtestAux m (some c) r

/-- Regex test over a character list. -/
def rtestL (m : MB) (s : List Char) : Bool := rtestAux m none s

/-!
## The intent patterns of `think`, in source order
-/

/-- Upscale-intent pattern. -/
def reUpscale : MB := malt [mlit "upscale", mlit "enhance",
  mseq (mlit "make") (mseq dotStar (mseq (malt [mlit "it", mlit "this", mlit "that"])
    (mseq dotStar (malt [mlit "bigger", mlit "larger", mlit "4k", mlit "hd",
      mseq (mlit "high") (mseq (mopt dotAny) (mlit "res"))])))),
  mseq (mlit "improve") (mseq dotStar (malt [mlit "quality", mlit "resolution"]))]

/-- Ultra-quality adjective pattern of the ultra-image intent. -/
def reQualityAdj : MB := malt [mlit "ultra", mlit "premium",
  mseq (mlit "high") (mseq (mopt dotAny) (mlit "quality")),
  mseq (mlit "best") (mseq (mopt dotAny) (mlit "quality"))]

/-- Image-noun pattern shared by the image intents. -/
def reImageNoun : MB := malt [mlit "image", mlit "picture", mlit "photo",
  mlit "illustration", mlit "logo", mlit "icon", mlit "art", mlit "poster"]

/-- Generation-verb pattern of the standard-image intent. -/
def reGenVerb : MB := malt [mlit "generate", mlit "create", mlit "draw",
  mlit "make", mlit "design", mlit "paint"]

/-- Verb pattern of the video intent. -/
def reVideoVerb : MB := malt [mlit "generate", mlit "create", mlit "make", mlit "produce"]

/-- Noun pattern of the video intent. -/
def reVideoNoun : MB := malt [mlit "video", mlit "clip", mlit "animation",
  mlit "movie", mlit "footage"]

/-- Weather-intent pattern. -/
def reWeather : MB := malt [mlit "weather", mlit "temperature", mlit "forecast",
  mlit "rain", mlit "snow", mlit "humidity", mlit "feels like", mlit "degrees",
  mlit "hot", mlit "cold outside"]

/-- The optional article group (a, optional n, whitespace) of the email
patterns. -/
def anOptGrp : MB := mopt (mseq (mlit "a") (mseq (mopt (mlit "n")) wsPlus))

/-- Send-email-intent pattern. -/
def reSendEmail : MB := malt [
  mseq (mlit "send") (mseq wsPlus (mseq anOptGrp (mlit "email"))),
  mseq (mlit "compose") (mseq wsPlus (mseq anOptGrp (mlit "email"))),
  mseq (mlit "email") (mseq wsPlus (mseq wordPlus (mlit "@"))),
  mseq (mlit "write") (mseq wsPlus (mseq (mlit "to") (mseq wsPlus (mseq wordPlus (mlit "@"))))),
  mseq (mlit "draft") (mseq wsPlus (mseq anOptGrp (mlit "email")))]

/-- Reminder-intent pattern. -/
def reReminder : MB := malt [
  mseq (mlit "remind") (mseq wsPlus (mlit "me")),
  mseq (mlit "set") (mseq wsPlus (mseq (mopt (mlit "a")) (mseq wsStar (mlit "reminder")))),
  mseq (mlit "don") (mseq (mopt (mch (fun c => c = aposC))) (mseq (mlit "t")
    (mseq wsPlus (mseq (mlit "let") (mseq wsPlus (mseq (mlit "me") (mseq wsPlus (mlit "forget"))))))))]

/-- The optional article group (a, whitespace) of the compose patterns. -/
def aWsOpt : MB := mopt (mseq (mlit "a") wsPlus)

/-- Compose-document-intent pattern. -/
def reComposeDoc : MB :=
  mseq (mlit "create") (mseq wsPlus (mseq aWsOpt (malt [mlit "document", mlit "doc",
    mseq (mlit "google") (mseq wsStar (mlit "doc")), mlit "spreadsheet", mlit "sheet",
    mlit "presentation", mlit "slide"])))

/-- Compose-draft-intent pattern. -/
def reComposeDraft : MB := malt [
  mseq (mlit "draft") (mseq wsPlus (mseq aWsOpt (malt [mlit "reply", mlit "response",
    mseq (mlit "email") (mseq wsPlus (mlit "body")), mlit "message"]))),
  mseq (mlit "write") (mseq wsPlus (mseq aWsOpt (malt [mlit "summary", mlit "report",
    mlit "brief", mlit "memo", mlit "proposal", mlit "document", mlit "plan"])))]

/-- Compose-summarize-intent pattern. -/
def reComposeSum : MB := malt [mlit "summarize",
  mseq (mlit "take") (mseq wsPlus (mlit "notes")),
  mseq (mlit "document") (mseq wsPlus (malt [mlit "this", mlit "that", mlit "the"])),
  mseq (mlit "put") (mseq wsPlus (mseq (malt [mlit "this", mlit "that", mlit "it"])
    (mseq wsPlus (mseq (malt [mlit "in", mlit "into", mlit "on"])
      (mseq wsPlus (mseq aWsOpt (malt [mlit "doc", mlit "document", mlit "sheet",
        mlit "spreadsheet", mlit "drive"])))))))]

/-- Calendar-read-intent pattern. -/
def reReadCalendar : MB := malt [mlit "calendar", mlit "schedule", mlit "event",
  mlit "meeting", mlit "today", mlit "appointment", mlit "tomorrow", mlit "this week",
  mlit "agenda", mlit "busy", mlit "free", mlit "available"]

/-- Email-read-intent pattern. -/
def reReadEmail : MB := malt [mlit "email", mlit "inbox", mlit "mail", mlit "gmail",
  mlit "message from", mlit "sent me", mlit "unread"]

/-- Drive-read-intent pattern. -/
def reReadDrive : MB := malt [mlit "drive", mlit "file", mlit "document", mlit "folder",
  mseq (mlit "find") (mseq dotStar (mlit "file")),
  mseq (mlit "search") (mseq dotStar (mlit "drive")),
  mseq (mlit "look") (mseq dotStar (mlit "drive"))]

/-- Web-search-intent pattern. -/
def reWebSearch : MB := malt [mlit "search", mseq (mlit "look") (mseq wsPlus (mlit "up")),
  mlit "find out", mlit "what is", mlit "who is", mlit "latest", mlit "news",
  mlit "how to", mlit "google", mlit "browse", mlit "research"]

/-- First compound pattern of `_isMultiStepRequest` (sequencing words in
word boundaries). -/
def reCompound1 : MB :=
  mseq mb (mseq (malt [mlit "and then", mlit "then", mlit "after that", mlit "also",
    mlit "next", mlit "finally", mseq (mlit "first") (mseq dotStar (mlit "then"))]) mb)

/-- Second compound pattern of `_isMultiStepRequest`
(research-verb, connective, communication-verb). -/
def reCompound2 : MB :=
  mseq mb (mseq (malt [mlit "research", mlit "find", mlit "look up"]) (mseq mb
    (mseq dotStar (mseq mb (mseq (malt [mlit "and", mlit "then"]) (mseq mb
      (mseq dotStar (mseq mb (mseq (malt [mlit "send", mlit "email", mlit "create",
        mlit "write", mlit "draft", mlit "summarize"]) mb)))))))))

/-- Third compound pattern of `_isMultiStepRequest`
(fetch-verb, connective, act-verb). -/
def reCompound3 : MB :=
  mseq mb (mseq (malt [mlit "check", mlit "get", mlit "read"]) (mseq mb
    (mseq dotStar (mseq mb (mseq (malt [mlit "and", mlit "then"]) (mseq mb
      (mseq dotStar (mseq mb (mseq (malt [mlit "tell", mlit "send", mlit "update",
        mlit "create"]) mb)))))))))

/-- Embedding of `_isMultiStepRequest`. -/
def isMultiStepRequest (m : String) : Bool :=
  let lower := jsLowerL m
  rtestL reCompound1 lower || rtestL reCompound2 lower || rtestL reCompound3 lower

/-!
## The routing decision of `think`
-/

/-- Presence (and, for the workspace, readiness) of each skill the matchers
of `think` consult, plus whether the orchestrator initialised. -/
structure Skills where
  geminiImage : Bool
  geminiVideo : Bool
  weather : Bool
  googleWorkspaceReady : Bool
  scheduler : Bool
  braveSearch : Bool
  orchestrator : Bool
deriving DecidableEq, Repr

/-- A Skills value with every skill present. -/
def allSkills : Skills := ⟨true, true, true, true, true, true, true⟩

/-- The closed set of routing decisions `think` can take. -/
inductive Route where
  | forceClaude | forceGemini | forceAgent | forcePlan
  | upscale | ultraImage | image | video | weather
  | sendEmail | reminder
  | composeDocument | composeDraft | composeSummarize
  | readCalendar | readEmail | readDrive | webSearch | multiStep | classify
deriving DecidableEq, Repr

/-- Matcher condition: explicit backend-override prefix for the powerful
backend. -/
def condForceClaude (m : String) : Bool := (dropPref "/claude ".data m.data).isSome

/-- Matcher condition: explicit backend-override prefix for the fast
backend. -/
def condForceGemini (m : String) : Bool := (dropPref "/gemini ".data m.data).isSome

/-- Matcher condition: explicit agent-loop override prefix. -/
def condForceAgent (m : String) : Bool := (dropPref "/agent ".data m.data).isSome

/-- Matcher condition: explicit planner override prefix. -/
def condForcePlan (m : String) : Bool := (dropPref "/plan ".data m.data).isSome

/-- Matcher condition: upscale intent with the image skill present. -/
def condUpscale (sk : Skills) (m : String) : Bool :=
  rtestL reUpscale (jsLowerL m) && sk.geminiImage

/-- Matcher condition: ultra-image intent (quality adjective and image
noun) with the image skill present. -/
def condUltraImage (sk : Skills) (m : String) : Bool :=
  rtestL reQualityAdj (jsLowerL m) && rtestL reImageNoun (jsLowerL m) && sk.geminiImage

/-- Matcher condition: standard-image intent with the image skill present. -/
def condImage (sk : Skills) (m : String) : Bool :=
  rtestL reGenVerb (jsLowerL m) && rtestL reImageNoun (jsLowerL m) && sk.geminiImage

/-- Matcher condition: video intent with the video skill present. -/
def condVideo (sk : Skills) (m : String) : Bool :=
  rtestL reVideoVerb (jsLowerL m) && rtestL reVideoNoun (jsLowerL m) && sk.geminiVideo

/-- Matcher condition: weather intent with the weather skill present. -/
def condWeather (sk : Skills) (m : String) : Bool :=
  rtestL reWeather (jsLowerL m) && sk.weather

/-- Matcher condition: send-email intent with a ready workspace skill. -/
def condSendEmail (sk : Skills) (m : String) : Bool :=
  rtestL reSendEmail (jsLowerL m) && sk.googleWorkspaceReady

/-- Matcher condition: reminder intent with the scheduler present. -/
def condReminder (sk : Skills) (m : String) : Bool :=
  rtestL reReminder (jsLowerL m) && sk.scheduler

/-- Matcher condition: compose-document intent (unguarded). -/
def condComposeDocument (m : String) : Bool := rtestL reComposeDoc (jsLowerL m)

/-- Matcher condition: compose-draft intent (unguarded). -/
def condComposeDraft (m : String) : Bool := rtestL reComposeDraft (jsLowerL m)

/-- Matcher condition: compose-summarize intent (unguarded). -/
def condComposeSummarize (m : String) : Bool := rtestL reComposeSum (jsLowerL m)

/-- Matcher condition: calendar read with a ready workspace skill. -/
def condReadCalendar (sk : Skills) (m : String) : Bool :=
  rtestL reReadCalendar (jsLowerL m) && sk.googleWorkspaceReady

/-- Matcher condition: email read with a ready workspace skill. -/
def condReadEmail (sk : Skills) (m : String) : Bool :=
  rtestL reReadEmail (jsLowerL m) && sk.googleWorkspaceReady

/-- Matcher condition: drive read with a ready workspace skill. -/
def condReadDrive (sk : Skills) (m : String) : Bool :=
  rtestL reReadDrive (jsLowerL m) && sk.googleWorkspaceReady

/-- Matcher condition: web-search intent with the search skill present. -/
def condWebSearch (sk : Skills) (m : String) : Bool :=
  rtestL reWebSearch (jsLowerL m) && sk.braveSearch

/-- Matcher condition: multi-step heuristic with the orchestrator present. -/
def condMultiStep (sk : Skills) (m : String) : Bool :=
  sk.orchestrator && isMultiStepRequest m

/-- Embedding of the routing decision taken by `think`: the cascade of
intent matchers exactly in source order, falling through to the classifier
route. -/
def thinkRoute (sk : Skills) (m : String) : Route :=
  if condForceClaude m then .forceClaude
  else if condForceGemini m then .forceGemini
  else if condForceAgent m then .forceAgent
  else if condForcePlan m then .forcePlan
  else if condUpscale sk m then .upscale
  else if condUltraImage sk m then .ultraImage
  else if condImage sk m then .image
  else if condVideo sk m then .video
  else if condWeather sk m then .weather
  else if condSendEmail sk m then .sendEmail
  else if condReminder sk m then .reminder
  else if condComposeDocument m then .composeDocument
  else if condComposeDraft m then .composeDraft
  else if condComposeSummarize m then .composeSummarize
  else if condReadCalendar sk m then .readCalendar
  else if condReadEmail sk m then .readEmail
  else if condReadDrive sk m then .readDrive
  else if condWebSearch sk m then .webSearch
  else if condMultiStep sk m then .multiStep
  else .classify

/-- The same matchers as an explicit priority-ordered list of
(condition, route) pairs, following the specification's reading of the
router. -/
def routeMatchers (sk : Skills) (m : String) : List (Bool × Route) :=
  [(condForceClaude m, .forceClaude),
   (condForceGemini m, .forceGemini),
   (condForceAgent m, .forceAgent),
   (condForcePlan m, .forcePlan),
   (condUpscale sk m, .upscale),
   (condUltraImage sk m, .ultraImage),
   (condImage sk m, .image),
   (condVideo sk m, .video),
   (condWeather sk m, .weather),
   (condSendEmail sk m, .sendEmail),
   (condReminder sk m, .reminder),
   (condComposeDocument m, .composeDocument),
   (condComposeDraft m, .composeDraft),
   (condComposeSummarize m, .composeSummarize),
   (condReadCalendar sk m, .readCalendar),
   (condReadEmail sk m, .readEmail),
   (condReadDrive sk m, .readDrive),
   (condWebSearch sk m, .webSearch),
   (condMultiStep sk m, .multiStep)]

/-- First-match evaluation of a priority list: the route of the first
entry whose condition holds; the classifier route when none does.  Later
entries are never consulted once a condition holds. -/
def firstMatch : List (Bool × Route) → Route
  | [] => .classify
  | (b, r) :: rest => if b then r else firstMatch rest

/-!
## The fallback chain (`thinkWithClaude`, `_fallbackToGemini`,
`thinkWithGemini`)
-/

/-- The backend-call stages the fallback chain can enter. -/
inductive Stage where
  | openaiCall
  | geminiDataCall
  | geminiPlainCall
deriving DecidableEq, Repr

/-- Oracle outcomes for one message travelling the fallback chain:
the Gemini API key, the joined prefetch sections (empty when nothing was
fetched), the overall outcome of `_callOpenAI`, the outcome of the Gemini
call with prefetched data, and the outcome of the plain-chat Gemini call
(after the key-router retry wrapper). -/
structure BrainWorld where
  geminiApiKey : String
  prefetched : String
  openai : Except String (Option String)
  geminiData : Except String (Option String)
  geminiPlain : Except String (Option String)

/-- Embedding of `thinkWithGemini`: reply string and stages entered. -/
def thinkWithGeminiT (w : BrainWorld) : String × List Stage :=
  if w.geminiApiKey = "" then ("Add GEMINI_API_KEY to .env", [])
  else
    match w.geminiPlain with
    | .ok (some t) => (if t = "" then "I" ++ apos ++ "m here!" else t, [Stage.geminiPlainCall])
    | .ok none => ("I" ++ apos ++ "m here!", [Stage.geminiPlainCall])
    | .error m => ("Error: " ++ m, [Stage.geminiPlainCall])

/-- Literal reply when the data-grounded Gemini call returns no text. -/
def noAnalyzeMsg : String :=
  "I found the data but couldn" ++ apos ++ "t analyze it. Try asking differently."

/-- Embedding of `_fallbackToGemini`: with nonempty prefetched data the
fast backend is called once with the data folded in, and its failure is
returned as the combined error string; with no data the plain-chat path
runs. -/
def fallbackToGeminiT (w : BrainWorld) : String × List Stage :=
  if w.prefetched = "" then thinkWithGeminiT w
  else
    match w.geminiData with
    | .ok (some t) => (if t = "" then noAnalyzeMsg else t, [Stage.geminiDataCall])
    | .ok none => (noAnalyzeMsg, [Stage.geminiDataCall])
    | .error m => ("Both Claude and Gemini failed: " ++ m, [Stage.geminiDataCall])

/-- Embedding of `thinkWithClaude`: the powerful backend is tried first; a
truthy text is returned as is, and an empty response or an exception enters
`_fallbackToGemini` with the same prefetched data. -/
def thinkWithClaudeT (w : BrainWorld) : String × List Stage :=
  match w.openai with
  | .ok (some t) =>
    if t = "" then
      let f := fallbackToGeminiT w
      (f.1, Stage.openaiCall :: f.2)
    else (t, [Stage.openaiCall])
  | .ok none =>
    let f := fallbackToGeminiT w
    (f.1, Stage.openaiCall :: f.2)
  | .error _ =>
    let f := fallbackToGeminiT w
    (f.1, Stage.openaiCall :: f.2)

/-- The powerful-backend stage failed: exception, missing text or empty
text. -/
def openaiFailed (w : BrainWorld) : Prop :=
  w.openai = .ok none ∨ w.openai = .ok (some "") ∨ ∃ m, w.openai = .error m

/-!
## Concrete inputs used by counterexamples and witnesses
-/

/-- World for claim C1: the powerful backend throws, prefetched data is
present, the data-grounded fast-backend call throws, and the plain-chat
fast-backend call would succeed. -/
def c1World : BrainWorld :=
  { geminiApiKey := "key",
    prefetched := "=== RECENT EMAILS ===",
    openai := .error "openai down",
    geminiData := .error "gemini down",
    geminiPlain := .ok (some "plain chat works") }

/-- World for the C1 witness: no prefetched data, powerful backend empty,
plain chat fails. -/
def c1PlainWorld : BrainWorld :=
  { geminiApiKey := "key",
    prefetched := "",
    openai := .ok none,
    geminiData := .ok none,
    geminiPlain := .error "rate limited" }

/-- Token state for the C3 counterexample: expired token with a refresh
token configured. -/
def c3State : TokenState :=
  { openaiAccessToken := "oldtok", openaiRefreshToken := "refresh", tokenExpiresAt := 0 }

/-- Refresh response for the C3 counterexample: the server grants sixty
seconds of lifetime. -/
def c3Resp : Except String RefreshResponse :=
  .ok { access_token := "newtok", refresh_token := "", expires_in := 60 }

/-- The token state `getValidToken` produces in the C3 counterexample. -/
def c3StateAfter : TokenState :=
  { openaiAccessToken := "newtok", openaiRefreshToken := "refresh", tokenExpiresAt := 1000000 }

/-- World for the C4 witness: valid proactive token, a 401 from the main
call, a successful reactive refresh and a successful retry. -/
def c4World : OpenAIWorld :=
  { proactive := .ok { access_token := "t1", refresh_token := "", expires_in := 3600 },
    mainResult := .error (.http 401 "unauthorized"),
    reactive := .ok { access_token := "t2", refresh_token := "", expires_in := 3600 },
    retryResult := .ok (some "retried answer") }

/-- Token state for the C4 witness: a valid unexpired token. -/
def c4State : TokenState :=
  { openaiAccessToken := "t1", openaiRefreshToken := "refresh", tokenExpiresAt := 2000 }

/-- Email world for the C6 witness: the model reply holds no JSON region. -/
def c6World : EmailWorld :=
  { parseCall := .ok (some "no json here"),
    jsonParse := fun _ => .error "unused",
    sendResult := .ok "sent" }

end MJBot

namespace MJBot

/-!
## Claim theorems
-/

/-- Claim C2 (confirmed): the intent matchers of `think` are evaluated in
a fixed total order with first-match semantics — the routing cascade
equals first-match evaluation of the explicit priority list — and the
message "generate an ultra image of a cat", which matches both the
ultra-image and the standard-image patterns, routes to the ultra-image
handler. -/
theorem C2_first_match_wins :
    thinkRoute allSkills "generate an ultra image of a cat" = Route.ultraImage
    ∧ rtestL reGenVerb (jsLowerL "generate an ultra image of a cat") = true
    ∧ rtestL reImageNoun (jsLowerL "generate an ultra image of a cat") = true
    ∧ ∀ (sk : Skills) (m : String), thinkRoute sk m = firstMatch (routeMatchers sk m) := by
  refine ⟨by decide, by decide, by decide, fun sk m => rfl⟩

/-- Claim C5 (confirmed): the classifier returns exactly one of the two
backend labels; the powerful-backend label appears exactly when the
trimmed, upper-cased response text equals the ACTION token, and a missing
text field or a failed call yields the fast-backend label.  The function
is total, so no input makes it raise. -/
theorem C5_classifier_failsafe :
    (∀ r, classifyMessage r = "claude" ∨ classifyMessage r = "gemini")
    ∧ (∀ t, jsUpperStr (jsTrimStr t) = "ACTION" → classifyMessage (.ok (some t)) = "claude")
    ∧ (∀ t, jsUpperStr (jsTrimStr t) ≠ "ACTION" → classifyMessage (.ok (some t)) = "gemini")
    ∧ classifyMessage (.ok none) = "gemini"
    ∧ (∀ e, classifyMessage (.error e) = "gemini") := by
  refine ⟨?_, ?_, ?_, rfl, fun e => rfl⟩
  · intro r
    match r with
    | .error e => exact Or.inr rfl
    | .ok o =>
      simp only [classifyMessage]
      split
      · exact Or.inl rfl
      · exact Or.inr rfl
  · intro t h
    simp [classifyMessage, h]
  · intro t h
    simp [classifyMessage, h]

/-- Witness for claim C5 at a concrete classifier response. -/
theorem C5_classifier_failsafe_w :
    classifyMessage (.ok (some " action \n")) = "claude" :=
  C5_classifier_failsafe.2.1 " action \n" (by decide)

/-- Claim C7 (code bug): evaluation of the drive search-term derivation at
the specification's own examples.  The input "can you search my drive for
invoices" is claimed to yield "invoices" but the second replace, an
alternation without word boundaries, strips the leading i-n from
"invoices" and the code derives "voices"; the residual-empty example
"check drive" does default to "recent" as claimed. -/
theorem C7_drive_search_term :
    driveSearchTerm "can you search my drive for invoices" = "voices"
    ∧ driveSearchTerm "can you search my drive for invoices" ≠ "invoices"
    ∧ driveSearchTerm "check drive" = "recent" := by
  refine ⟨by decide, by decide, by decide⟩

/-- Counterexample for claim C3: with an expired token and a refresh
response granting sixty seconds, `getValidToken` performs the one refresh
and hands the main call a token whose stored expiry equals now
(1000000 + 60·1000 − 60000), so the main call does not hold a token with
expiry strictly greater than now. -/
theorem C3_counterexample :
    getValidToken 1000000 c3State c3Resp = (.ok ("newtok", c3StateAfter), 1)
    ∧ ¬ (1000000 < c3StateAfter.tokenExpiresAt) := by
  refine ⟨by decide, by decide⟩

/-- Claim C3 (corrected): an expired or absent access token triggers
exactly one refresh before the main call and a held, unexpired token
triggers none; after a successful refresh the stored expiry is
now + (expires_in or 3600)·1000 − 60000, so the main call holds a token
with expiry strictly greater than now whenever the refresh response grants
more than sixty seconds (with expires_in at most sixty the stored expiry
can be at or before now, as the counterexample shows). -/
theorem C3_refresh_discipline :
    ∀ (now : Int) (st : TokenState) (resp : Except String RefreshResponse),
    (st.openaiAccessToken ≠ "" → now < st.tokenExpiresAt →
      getValidToken now st resp = (.ok (st.openaiAccessToken, st), 0))
    ∧ ((st.openaiAccessToken = "" ∨ now ≥ st.tokenExpiresAt) →
        ¬ (st.openaiAccessToken = "" ∧ st.openaiRefreshToken = "") →
      (getValidToken now st resp).2 = 1)
    ∧ (∀ (r : RefreshResponse) (st2 : TokenState),
        (st.openaiAccessToken = "" ∨ now ≥ st.tokenExpiresAt) →
        resp = .ok r →
        refreshAccessToken now st resp = .ok st2 →
        getValidToken now st resp = (.ok (st2.openaiAccessToken, st2), 1)
        ∧ st2.tokenExpiresAt = now + (if r.expires_in = 0 then 3600 else r.expires_in) * 1000 - 60000
        ∧ (60 < r.expires_in → now < st2.tokenExpiresAt)) := by
  intro now st resp
  refine ⟨?_, ?_, ?_⟩
  · intro hacc hfut
    have h1 : ¬ (st.openaiAccessToken = "" ∧ st.openaiRefreshToken = "") :=
      fun hc => hacc hc.1
    have h2 : ¬ (st.openaiAccessToken = "" ∨ now ≥ st.tokenExpiresAt) := by
      push_neg
      exact ⟨hacc, by omega⟩
    rw [getValidToken.eq_def, if_neg h1, if_neg h2]
  · intro hexp hconf
    rw [getValidToken.eq_def, if_neg hconf, if_pos hexp]
    cases h : refreshAccessToken now st resp <;> simp
  · intro r st2 hexp hresp hrefresh
    have hconf : ¬ (st.openaiAccessToken = "" ∧ st.openaiRefreshToken = "") := by
      intro hc
      rw [refreshAccessToken.eq_def, if_pos hc.2] at hrefresh
      exact Except.noConfusion hrefresh
    have hmain : getValidToken now st resp = (.ok (st2.openaiAccessToken, st2), 1) := by
      rw [getValidToken.eq_def, if_neg hconf, if_pos hexp, hrefresh]
    have hexpiry : st2.tokenExpiresAt
        = now + (if r.expires_in = 0 then 3600 else r.expires_in) * 1000 - 60000 := by
      rw [refreshAccessToken.eq_def] at hrefresh
      split at hrefresh
      · exact Except.noConfusion hrefresh
      · rw [hresp] at hrefresh
        simp only [Except.ok.injEq] at hrefresh
        rw [← hrefresh]
    refine ⟨hmain, hexpiry, ?_⟩
    intro hgrant
    rw [hexpiry]
    have hne : ¬ r.expires_in = 0 := by omega
    rw [if_neg hne]
    omega

/-- Witness for claim C3 at a concrete state: a held token with future
expiry gives zero refreshes. -/
theorem C3_refresh_discipline_w :
    getValidToken 1000 (TokenState.mk "held" "r" 2000) (.error "net")
      = (.ok ("held", TokenState.mk "held" "r" 2000), 0) :=
  (C3_refresh_discipline 1000 (TokenState.mk "held" "r" 2000) (.error "net")).1
    (by decide) (by decide)

/-- Claim C8 (confirmed): with neither token configured `getValidToken`
fails fast with the configuration error and performs zero refresh
attempts; a refresh without a refresh token raises its own configuration
error; and with only the refresh token absent and a refresh needed, that
error is what `getValidToken` raises after its single attempt. -/
theorem C8_config_failfast :
    ∀ (now : Int) (st : TokenState) (resp : Except String RefreshResponse),
    (st.openaiAccessToken = "" → st.openaiRefreshToken = "" →
      getValidToken now st resp
        = (.error "No OpenAI credentials configured. Set OPENAI_CODEX_TOKEN and OPENAI_CODEX_REFRESH in .env", 0))
    ∧ (st.openaiRefreshToken = "" →
      refreshAccessToken now st resp = .error "No OpenAI refresh token configured")
    ∧ (st.openaiAccessToken ≠ "" → st.openaiRefreshToken = "" → now ≥ st.tokenExpiresAt →
      getValidToken now st resp = (.error "No OpenAI refresh token configured", 1)) := by
  intro now st resp
  refine ⟨?_, ?_, ?_⟩
  · intro ha hr
    rw [getValidToken.eq_def, if_pos ⟨ha, hr⟩]
  · intro hr
    rw [refreshAccessToken.eq_def, if_pos hr]
  · intro ha hr hexp
    rw [getValidToken.eq_def, if_neg (fun hc => ha hc.1), if_pos (Or.inr hexp),
      refreshAccessToken.eq_def, if_pos hr]

/-- Witness for claim C8 at a concrete unconfigured state. -/
theorem C8_config_failfast_w :
    getValidToken 5 (TokenState.mk "" "" 0) (.error "net")
      = (.error "No OpenAI credentials configured. Set OPENAI_CODEX_TOKEN and OPENAI_CODEX_REFRESH in .env", 0) :=
  (C8_config_failfast 5 (TokenState.mk "" "" 0) (.error "net")).1 rfl rfl

/-- Claim C10 (confirmed): the constructor stores expiry 0, so on the
first powerful-backend call — any non-negative clock — `getValidToken`
performs a refresh even when an access token was supplied in
configuration. -/
theorem C10_first_call_refreshes :
    ∀ (cfgToken cfgRefresh : String) (now : Int) (resp : Except String RefreshResponse),
    cfgToken ≠ "" → 0 ≤ now →
    (getValidToken now (initialTokenState cfgToken cfgRefresh) resp).2 = 1 := by
  intro cfgToken cfgRefresh now resp htok hnow
  rw [getValidToken.eq_def, if_neg (fun hc => htok hc.1),
    if_pos (Or.inr (by simpa [initialTokenState] using hnow))]
  cases h : refreshAccessToken now (initialTokenState cfgToken cfgRefresh) resp <;> simp

/-- Witness for claim C10 at a concrete configuration. -/
theorem C10_first_call_refreshes_w :
    (getValidToken 1700000000000 (initialTokenState "configuredtok" "configuredrefresh")
      (.ok (RefreshResponse.mk "fresh" "" 3600))).2 = 1 :=
  C10_first_call_refreshes "configuredtok" "configuredrefresh" 1700000000000
    (.ok (RefreshResponse.mk "fresh" "" 3600)) (by decide) (by decide)

/-- Claim C4 (confirmed): a 401 from the main powerful-backend call makes
`_callOpenAI` perform exactly one reactive refresh; when the refresh
succeeds exactly one retry follows (two HTTP attempts in total) and the
retry's failure propagates out as is, and when the reactive refresh itself
fails that failure propagates after the single original attempt — no
further retries in either case. -/
theorem C4_401_single_retry :
    ∀ (now : Int) (st : TokenState) (w : OpenAIWorld) (tok : String)
      (st1 : TokenState) (n : Nat) (m : String),
    getValidToken now st w.proactive = (.ok (tok, st1), n) →
    w.mainResult = .error (.http 401 m) →
    (∀ st2, refreshAccessToken now st1 w.reactive = .ok st2 →
      callOpenAI now st w =
        ((match w.retryResult with
          | .ok c => .ok (jsTruthyText c)
          | .error e2 => .error (errMessage e2)), st2, n + 1, 2))
    ∧ (∀ re, refreshAccessToken now st1 w.reactive = .error re →
      callOpenAI now st w = (.error re, st1, n + 1, 1)) := by
  intro now st w tok st1 n m hvalid hmain
  constructor
  · intro st2 hrefresh
    simp only [callOpenAI, hvalid, hmain, hrefresh, isHttp401]
    cases w.retryResult <;> simp
  · intro re hrefresh
    simp only [callOpenAI, hvalid, hmain, hrefresh, isHttp401]
    simp

/-- Witness for claim C4 at a concrete world: 401, successful reactive
refresh, successful retry. -/
theorem C4_401_single_retry_w :
    callOpenAI 1000 (TokenState.mk "t1" "refresh" 2000) c4World
      = (.ok (some "retried answer"),
         TokenState.mk "t2" "refresh" 3541000, 1, 2) :=
  (C4_401_single_retry 1000 (TokenState.mk "t1" "refresh" 2000) c4World "t1"
    (TokenState.mk "t1" "refresh" 2000) 0 "unauthorized"
    (by decide) (by decide)).1 (TokenState.mk "t2" "refresh" 3541000) (by decide)

/-- Claim C6 (confirmed): the send-email handler returns the literal
no-JSON guidance string without invoking the skill when the reply holds no
JSON region, returns the literal recipient guidance string without
invoking the skill when the parsed object lacks the recipient, and invokes
the external sendEmail skill only when a region was found, it parsed, and
the recipient key is present; the embedding is a total function, so no
path raises. -/
theorem C6_email_recipient_guard :
    ∀ (msg : String) (w : EmailWorld),
    (∀ o, w.parseCall = .ok o → braceMatch (o.getD "").data = none →
      handleSendEmail msg w = (noJsonMsg, false))
    ∧ (∀ o region j, w.parseCall = .ok o → braceMatch (o.getD "").data = some region →
        w.jsonParse (String.mk region) = .ok j → j.toAddr = "" →
      handleSendEmail msg w = ("I need a recipient email address.", false))
    ∧ ((handleSendEmail msg w).2 = true →
      ∃ o region j, w.parseCall = .ok o ∧ braceMatch (o.getD "").data = some region
        ∧ w.jsonParse (String.mk region) = .ok j ∧ j.toAddr ≠ "") := by
  intro msg w
  refine ⟨?_, ?_, ?_⟩
  · intro o hcall hregion
    simp only [handleSendEmail, hcall, hregion]
  · intro o region j hcall hregion hparse hto
    simp only [handleSendEmail, hcall, hregion, hparse, hto, if_pos]
  · intro hsent
    rw [handleSendEmail.eq_def] at hsent
    cases hcall : w.parseCall with
    | error e => rw [hcall] at hsent; exact absurd hsent (by simp)
    | ok o =>
      rw [hcall] at hsent
      simp only at hsent
      cases hregion : braceMatch (o.getD "").data with
      | none => rw [hregion] at hsent; exact absurd hsent (by simp)
      | some region =>
        rw [hregion] at hsent
        simp only at hsent
        cases hparse : w.jsonParse (String.mk region) with
        | error e => rw [hparse] at hsent; exact absurd hsent (by simp)
        | ok j =>
          rw [hparse] at hsent
          simp only at hsent
          by_cases hto : j.toAddr = ""
          · rw [if_pos hto] at hsent
            exact absurd hsent (by simp)
          · exact ⟨o, region, j, rfl, hregion, hparse, hto⟩

/-- Witness for claim C6: a reply with no JSON region yields the guidance
string and no skill call. -/
theorem C6_email_recipient_guard_w :
    handleSendEmail "send an email to bob" c6World = (noJsonMsg, false) :=
  (C6_email_recipient_guard "send an email to bob" c6World).1
    (some "no json here") rfl (by decide)

/-- Claim C9 (confirmed): the video intent places a parsed duration into
the options only when it is 4, 6 or 8; the concrete messages show 6
accepted and 12 silently dropped.  The extraction is a total function, so
an out-of-range duration never raises. -/
theorem C9_video_duration_allowlist :
    (∀ (lower : List Char) (n : Nat), videoDurationOf lower = some n →
      n = 4 ∨ n = 6 ∨ n = 8)
    ∧ videoDurationOf (jsLowerL "create a video of a sunset 6 sec") = some 6
    ∧ videoDurationOf (jsLowerL "create a video of a sunset 12 sec") = none := by
  refine ⟨?_, by decide, by decide⟩
  intro lower n h
  rw [videoDurationOf.eq_def] at h
  cases hfind : firstNumSec lower with
  | none => rw [hfind] at h; exact Option.noConfusion h
  | some ds =>
    rw [hfind] at h
    simp only at h
    split at h
    · next hd =>
      cases h
      exact hd
    · exact Option.noConfusion h

/-- Witness for claim C9 at a concrete message. -/
theorem C9_video_duration_allowlist_w :
    (6 : Nat) = 4 ∨ (6 : Nat) = 6 ∨ (6 : Nat) = 8 :=
  C9_video_duration_allowlist.1 (jsLowerL "a 6 sec clip") 6 (by decide)

/-- Counterexample for claim C1: with prefetched data present, a failing
powerful-backend call and a failing data-grounded fast-backend call, the
orchestrator returns the combined failure string and the plain-chat
fast-backend stage is never entered — even though that stage would have
succeeded — contradicting the claimed three-stage chain. -/
theorem C1_counterexample :
    thinkWithClaudeT c1World
      = ("Both Claude and Gemini failed: gemini down",
         [Stage.openaiCall, Stage.geminiDataCall])
    ∧ Stage.geminiPlainCall ∉ (thinkWithClaudeT c1World).2
    ∧ thinkWithGeminiT c1World = ("plain chat works", [Stage.geminiPlainCall]) := by
  refine ⟨by decide, by decide, by decide⟩

/-- Claim C1 (corrected): when the powerful backend fails (exception,
missing or empty text), the orchestrator enters the fast backend with the
prefetched data folded in when that data is nonempty — and a failure there
is returned directly as the combined user-visible error string, with no
further plain-chat stage — while with empty prefetched data the fast
backend runs in plain-chat mode and its failure is returned as the
user-visible error string; the plain-chat stage is entered only when no
prefetched data exists, and every path returns a string (no stage raises). -/
theorem C1_fallback_chain :
    ∀ (w : BrainWorld), openaiFailed w →
    (∀ m, w.prefetched ≠ "" → w.geminiData = .error m →
      thinkWithClaudeT w
        = ("Both Claude and Gemini failed: " ++ m, [Stage.openaiCall, Stage.geminiDataCall]))
    ∧ (∀ t, w.prefetched ≠ "" → w.geminiData = .ok (some t) → t ≠ "" →
      thinkWithClaudeT w = (t, [Stage.openaiCall, Stage.geminiDataCall]))
    ∧ (∀ m, w.prefetched = "" → w.geminiApiKey ≠ "" → w.geminiPlain = .error m →
      thinkWithClaudeT w = ("Error: " ++ m, [Stage.openaiCall, Stage.geminiPlainCall]))
    ∧ (Stage.geminiPlainCall ∈ (thinkWithClaudeT w).2 → w.prefetched = "") := by
  intro w hfail
  have hfallback : ∀ (p : String × List Stage), fallbackToGeminiT w = p →
      thinkWithClaudeT w = (p.1, Stage.openaiCall :: p.2) := by
    intro p hp
    rcases hfail with h | h | ⟨m, h⟩ <;> simp [thinkWithClaudeT, h, hp]
  refine ⟨?_, ?_, ?_, ?_⟩
  · intro m hpre hdata
    apply hfallback ("Both Claude and Gemini failed: " ++ m, [Stage.geminiDataCall])
    simp [fallbackToGeminiT, hpre, hdata]
  · intro t hpre hdata ht
    apply hfallback (t, [Stage.geminiDataCall])
    simp [fallbackToGeminiT, hpre, hdata, ht]
  · intro m hpre hkey hplain
    apply hfallback ("Error: " ++ m, [Stage.geminiPlainCall])
    simp [fallbackToGeminiT, hpre, thinkWithGeminiT, hkey, hplain]
  · intro hmem
    by_contra hpre
    have htrace : (fallbackToGeminiT w).2 = [Stage.geminiDataCall] := by
      rw [fallbackToGeminiT.eq_def, if_neg hpre]
      cases w.geminiData with
      | ok o => cases o <;> rfl
      | error m => rfl
    have htrace2 : (thinkWithClaudeT w).2 = Stage.openaiCall :: (fallbackToGeminiT w).2 := by
      rcases hfail with h | h | ⟨m, h⟩ <;> simp [thinkWithClaudeT, h]
    rw [htrace2, htrace] at hmem
    exact absurd hmem (by decide)

/-- Witness for claim C1 at concrete worlds: the with-data failure path
and the plain-chat failure path. -/
theorem C1_fallback_chain_w :
    thinkWithClaudeT c1PlainWorld
      = ("Error: rate limited", [Stage.openaiCall, Stage.geminiPlainCall]) :=
  ((C1_fallback_chain c1PlainWorld (Or.inl rfl)).2.2.1) "rate limited"
    rfl (by decide) rfl

end MJBot
